import Mathlib

/-!
# Verification of the EduMatch MCP gateway

A shallow embedding of the protocol gateway implemented in
`src/api_server.py` and `src/server.py`:

* JSON values are modelled by the inductive `Json` (numbers as rationals:
  the numeric data flowing through the gateway is exact decimal data, and
  no claim depends on binary floating-point rounding);
* the PostgreSQL data provider is modelled by an `Except String (List DBRow)`
  value: `.ok rows` is a successful connection whose table join yields
  `rows`, `.error msg` is a raised database exception with message `msg`;
* the SQL fragments built by `programs_list` / `rank_programs` are embedded
  as executable filter / sort / paginate pipelines over the row list, with
  SQL three-valued comparison semantics made explicit (a comparison against
  NULL is not-true, `NULLIF(tuition, 0)` yields NULL for 0, and
  `ORDER BY ... DESC` places NULL scores first, as PostgreSQL does);
* `ILIKE '%pat%'` is modelled as case-insensitive substring containment
  (patterns containing the wildcard metacharacters `%` and `_` are outside
  the modelled input space, as is text whose collation differs from
  code-point order);
* pydantic argument parsing is modelled by `Except`-valued parsers whose
  errors are the exceptions caught by the dispatcher's `try`; `limit` and
  `offset` are modelled as naturals with their declared defaults (SQL
  `LIMIT NULL` and negative limits are outside the modelled input space).
-/

/-- A JSON value.  Numbers are rationals (see the header note). -/
inductive Json where
  | null : Json
  | bool : Bool → Json
  | num : ℚ → Json
  | str : String → Json
  | arr : List Json → Json
  | obj : List (String × Json) → Json
deriving Repr

/-- Python `d.get(k)` on a dict: the value at the first matching key, if any. -/
def jsonGet (j : Json) (k : String) : Option Json :=
  match j with
  | Json.obj kvs => (kvs.find? (fun kv => kv.1 == k)).map (fun kv => kv.2)
  | _ => none

/-- Whether a dict carries the key `k` at top level. -/
def hasKey (j : Json) (k : String) : Bool :=
  match j with
  | Json.obj kvs => kvs.any (fun kv => kv.1 == k)
  | _ => false

/-- Python truthiness of a JSON value (`if error:` in `mcp_response`). -/
def jsonTruthy : Json → Bool
  | Json.null => false
  | Json.bool b => b
  | Json.num q => !(q == 0)
  | Json.str s => !s.isEmpty
  | Json.arr xs => !xs.isEmpty
  | Json.obj kvs => !kvs.isEmpty

/-- Python `x == "s"` where `x` is an arbitrary JSON value and `"s"` a string. -/
def isStr (j : Json) (s : String) : Bool :=
  match j with
  | Json.str t => t == s
  | _ => false

/-- `mcp_response` of `api_server.py`: builds the response envelope.
`result` / `error` are the (default `None`) keyword arguments; the branch
tests Python truthiness of `error`. -/
def mcp_response (request_id : Json) (result : Option Json) (error : Option Json) : Json :=
  if jsonTruthy (error.getD Json.null) then
    Json.obj [("jsonrpc", Json.str "2.0"), ("id", request_id),
              ("error", error.getD Json.null)]
  else
    Json.obj [("jsonrpc", Json.str "2.0"), ("id", request_id),
              ("result", result.getD Json.null)]

/-! ## AuthGate (`verify_authorized_user`) -/

/-- `ALLOWED_USERS` of `api_server.py`. -/
def ALLOWED_USERS : List String := ["patunalu", "MrJohn91"]

/-- Outcome of the auth dependency: either the verified user's login, or an
`HTTPException(status_code, detail)`. -/
inductive AuthResult where
  | ok : String → AuthResult
  | httpError : ℕ → String → AuthResult
deriving Repr, DecidableEq

/-- Python `s.startswith(p)`, on the character lists (kernel-reducible). -/
def pyStartsWith (s p : String) : Bool :=
  p.data.isPrefixOf s.data

/-- Python `s.split(" ")`: split on every single space, keeping empty
chunks, on the character list. -/
def splitOnSpace (cs : List Char) : List (List Char) :=
  match cs with
  | [] => [[]]
  | c :: rest =>
    let r := splitOnSpace rest
    if c = ' ' then [] :: r
    else (c :: r.headD []) :: r.tail

/-- `auth_header.split(" ")[1]`: the second space-separated chunk (total here;
the caller has checked the header starts with `"Bearer "`, so it exists). -/
def bearerToken (h : String) : String :=
  String.mk (((splitOnSpace h.data).get? 1).getD [])

/-- `verify_authorized_user` of `api_server.py`.  The external GitHub identity
verifier is the parameter `verifier`: `verifier token = some login` models a
200 response whose body's `login` field is `login`, `none` models any
non-200 response. -/
def verify_authorized_user (verifier : String → Option String)
    (authHeader : Option String) : AuthResult :=
  match authHeader with
  | none => AuthResult.httpError 401 "GitHub authentication required"
  | some h =>
    if !(pyStartsWith h "Bearer ") then
      AuthResult.httpError 401 "GitHub authentication required"
    else
      match verifier (bearerToken h) with
      | none => AuthResult.httpError 401 "Invalid GitHub token"
      | some username =>
        if username ∈ ALLOWED_USERS then AuthResult.ok username
        else AuthResult.httpError 403
          ("Access denied. User \x27" ++ username ++ "\x27 not authorized")

/-! ## Data model (one joined row of programs × countries × institutions) -/

/-- One row of the three-way join both tool queries select.  `tuition` and
`ctr` are nullable columns; the rest are non-null. -/
structure DBRow where
  program_id : ℤ
  program_name : String
  country : String
  institution : String
  institution_type : String
  duration_months : ℤ
  tuition : Option ℚ
  ctr : Option ℚ
  total_views : ℤ
  total_impressions : ℤ
deriving Repr, DecidableEq

/-- `ProgramsToolArguments` of `server.py` (pydantic model; defaults are
applied by the parser `parseProgramsArgs` below). -/
structure ProgramsToolArguments where
  program_name : Option String
  country_name : Option String
  institution_name : Option String
  max_tuition : Option ℚ
  limit : ℕ
  offset : ℕ
deriving Repr, DecidableEq

/-- `RankProgramsArguments` of `server.py`. -/
structure RankProgramsArguments where
  country_name : Option String
  institution_name : Option String
  max_tuition : Option ℚ
  ranking_method : Option String
  limit : ℕ
deriving Repr, DecidableEq

/-- `hay ILIKE '%pat%'`: case-insensitive substring containment (see the
header note on wildcards). -/
def containsCI (hay pat : String) : Bool :=
  pat.isEmpty || ((hay.toLower).splitOn pat.toLower).length ≥ 2

/-- The optional `ILIKE` filter added by `if args.field:` — a `None` or empty
string (both falsy in Python) adds no condition. -/
def optNameFilter (v : Option String) (hay : String) : Bool :=
  match v with
  | some p => if p.isEmpty then true else containsCI hay p
  | none => true

/-- The optional `p.tuition <= max_tuition` filter (added by
`if args.max_tuition is not None:`); a NULL tuition fails the SQL
comparison. -/
def maxTuitionFilter (m : Option ℚ) (t : Option ℚ) : Bool :=
  match m with
  | some m =>
    match t with
    | some t => t ≤ m
    | none => false
  | none => true

/-- The WHERE clause built by `programs_list`. -/
def matchesProgramsFilter (args : ProgramsToolArguments) (r : DBRow) : Bool :=
  optNameFilter args.program_name r.program_name &&
  optNameFilter args.country_name r.country &&
  optNameFilter args.institution_name r.institution &&
  maxTuitionFilter args.max_tuition r.tuition

/-- SQL `col > 0` on a nullable column: NULL compares not-true. -/
def sqlGtZero (x : Option ℚ) : Bool :=
  match x with
  | some q => 0 < q
  | none => false

/-- The WHERE clause built by `rank_programs`:
`p.ctr > 0 AND p.total_views > 0` plus the optional filters. -/
def matchesRankFilter (args : RankProgramsArguments) (r : DBRow) : Bool :=
  sqlGtZero r.ctr && (0 < r.total_views) &&
  optNameFilter args.country_name r.country &&
  optNameFilter args.institution_name r.institution &&
  maxTuitionFilter args.max_tuition r.tuition

/-- The `score_formula` selection of `rank_programs` (`server.py`), with SQL
NULL propagation: `p.ctr * 100` is NULL for NULL ctr, and
`(p.total_views::float / NULLIF(p.tuition, 0)) * 1000` is NULL when tuition
is NULL or 0. -/
def score_formula (ranking_method : Option String) (r : DBRow) : Option ℚ :=
  if ranking_method == some "engagement" then
    r.ctr.map (fun c => c * 100)
  else if ranking_method == some "cost_effectiveness" then
    match r.tuition with
    | none => none
    | some t => if t = 0 then none else some ((r.total_views : ℚ) / t * 1000)
  else
    some ((r.total_views : ℚ) + (r.total_impressions : ℚ) * (1 / 10))

/-! ## ORDER BY embeddings -/

/-- `ORDER BY p.program_name` (ascending): code-point lexicographic order on
the character lists (SQL text ordering under code-point collation). -/
def nameLE (a b : DBRow) : Prop := a.program_name.data ≤ b.program_name.data

instance : DecidableRel nameLE := fun a b =>
  inferInstanceAs (Decidable (a.program_name.data ≤ b.program_name.data))

instance : IsTotal DBRow nameLE :=
  ⟨fun a b => le_total a.program_name.data b.program_name.data⟩

instance : IsTrans DBRow nameLE :=
  ⟨fun _ _ _ hab hbc => le_trans hab hbc⟩

/-- The sort key for `ORDER BY ranking_score DESC`: PostgreSQL sorts NULL as
if larger than every non-null value, so under DESC the NULL scores come
first. -/
def scoreKey (s : Option ℚ) : WithTop ℚ :=
  match s with
  | none => ⊤
  | some q => (q : WithTop ℚ)

/-- `a` may precede `b` under `ORDER BY ranking_score DESC`. -/
def rankGE (a b : DBRow × Option ℚ) : Prop := scoreKey b.2 ≤ scoreKey a.2

instance : DecidableRel rankGE := fun a b =>
  inferInstanceAs (Decidable (scoreKey b.2 ≤ scoreKey a.2))

instance : IsTotal (DBRow × Option ℚ) rankGE :=
  ⟨fun a b => le_total (scoreKey b.2) (scoreKey a.2)⟩

instance : IsTrans (DBRow × Option ℚ) rankGE :=
  ⟨fun _ _ _ hab hbc => le_trans hbc hab⟩

/-- The row pipeline of the `programs_list` query: WHERE filter, then
`ORDER BY p.program_name LIMIT %s OFFSET %s`. -/
def programsListRows (db : List DBRow) (args : ProgramsToolArguments) : List DBRow :=
  (((db.filter (matchesProgramsFilter args)).insertionSort nameLE).drop args.offset).take
    args.limit

/-- The row pipeline of the `rank_programs` query: WHERE filter, the computed
`ranking_score` column, then `ORDER BY ranking_score DESC LIMIT %s`. -/
def rankProgramsRows (db : List DBRow) (args : RankProgramsArguments) :
    List (DBRow × Option ℚ) :=
  (((db.filter (matchesRankFilter args)).map
      (fun r => (r, score_formula args.ranking_method r))).insertionSort rankGE).take
    args.limit

/-! ## Python stringification (`str(result)` on a dict) -/

mutual
/-- Python `str`/`repr` of a JSON-like value (non-integral rationals are
printed in fraction form, an abstraction of float formatting on which no
claim depends). -/
def pyRepr : Json → String
  | Json.null => "None"
  | Json.bool b => if b then "True" else "False"
  | Json.num q => if q.den = 1 then toString q.num else toString q
  | Json.str s => "\x27" ++ s ++ "\x27"
  | Json.arr xs => "[" ++ pyReprElems xs ++ "]"
  | Json.obj kvs => "\x7b" ++ pyReprItems kvs ++ "\x7d"

/-- Comma-separated `repr` of list elements. -/
def pyReprElems : List Json → String
  | [] => ""
  | [x] => pyRepr x
  | x :: y :: xs => pyRepr x ++ ", " ++ pyReprElems (y :: xs)

/-- Comma-separated `repr` of dict items. -/
def pyReprItems : List (String × Json) → String
  | [] => ""
  | [kv] => "\x27" ++ kv.1 ++ "\x27: " ++ pyRepr kv.2
  | kv :: p :: xs => "\x27" ++ kv.1 ++ "\x27: " ++ pyRepr kv.2 ++ ", " ++ pyReprItems (p :: xs)
end

/-! ## Output shaping of the two tools -/

/-- `float(row[i]) if row[i] else None`: Python truthiness maps both SQL NULL
and 0 to `None`. -/
def pyFloatOrNull (x : Option ℚ) : Json :=
  match x with
  | some v => if v = 0 then Json.null else Json.num v
  | none => Json.null

/-- `float(row[10]) if row[10] else 0`: NULL (and 0.0) become the number 0. -/
def pyFloatOrZero (x : Option ℚ) : Json :=
  match x with
  | some v => if v = 0 then Json.num 0 else Json.num v
  | none => Json.num 0

/-- The per-row dict built by `programs_list`. -/
def shapeProgramJson (r : DBRow) : Json :=
  Json.obj [
    ("program_id", Json.num (r.program_id : ℚ)),
    ("program_name", Json.str r.program_name),
    ("country", Json.str r.country),
    ("institution", Json.str r.institution),
    ("institution_type", Json.str r.institution_type),
    ("duration_months", Json.num (r.duration_months : ℚ)),
    ("tuition", pyFloatOrNull r.tuition),
    ("ctr", pyFloatOrNull r.ctr),
    ("total_views", Json.num (r.total_views : ℚ)),
    ("total_impressions", Json.num (r.total_impressions : ℚ))]

/-- The per-row dict built by `rank_programs` (the extra column is the
computed `ranking_score`). -/
def shapeRankedJson (p : DBRow × Option ℚ) : Json :=
  Json.obj [
    ("program_id", Json.num (p.1.program_id : ℚ)),
    ("program_name", Json.str p.1.program_name),
    ("country", Json.str p.1.country),
    ("institution", Json.str p.1.institution),
    ("institution_type", Json.str p.1.institution_type),
    ("duration_months", Json.num (p.1.duration_months : ℚ)),
    ("tuition", pyFloatOrNull p.1.tuition),
    ("ctr", pyFloatOrNull p.1.ctr),
    ("total_views", Json.num (p.1.total_views : ℚ)),
    ("total_impressions", Json.num (p.1.total_impressions : ℚ)),
    ("ranking_score", pyFloatOrZero p.2)]

/-- `{k: v for k, v in args.dict().items() if v is not None}` in field
declaration order (`limit` and `offset` always carry a value here). -/
def filtersApplied (args : ProgramsToolArguments) : Json :=
  Json.obj (
    (match args.program_name with
     | some s => [("program_name", Json.str s)]
     | none => []) ++
    (match args.country_name with
     | some s => [("country_name", Json.str s)]
     | none => []) ++
    (match args.institution_name with
     | some s => [("institution_name", Json.str s)]
     | none => []) ++
    (match args.max_tuition with
     | some m => [("max_tuition", Json.num m)]
     | none => []) ++
    [("limit", Json.num (args.limit : ℚ)), ("offset", Json.num (args.offset : ℚ))])

/-- `programs_list` of `server.py`.  The whole body is a `try` whose only
failure source is the data provider; its `except` returns the plain dict
`{"error": str(e)}` as a NORMAL return value. -/
def programs_list (dp : Except String (List DBRow))
    (args : ProgramsToolArguments) : Json :=
  match dp with
  | Except.error e => Json.obj [("error", Json.str e)]
  | Except.ok db =>
    let programs := (programsListRows db args).map shapeProgramJson
    Json.obj [
      ("programs", Json.arr programs),
      ("count", Json.num (programs.length : ℚ)),
      ("filters_applied", filtersApplied args)]

/-- `rank_programs` of `server.py`; same `try`/`except` convention as
`programs_list`. -/
def rank_programs (dp : Except String (List DBRow))
    (args : RankProgramsArguments) : Json :=
  match dp with
  | Except.error e => Json.obj [("error", Json.str e)]
  | Except.ok db =>
    let programs := (rankProgramsRows db args).map shapeRankedJson
    Json.obj [
      ("ranked_programs", Json.arr programs),
      ("ranking_method", match args.ranking_method with
                         | some s => Json.str s
                         | none => Json.null),
      ("count", Json.num (programs.length : ℚ))]

/-- `usage_guide` of `server.py` (the `guide://usage` resource body). -/
def usage_guide : Json :=
  Json.obj [
    ("description", Json.str "EduMatch Program Discovery Assistant"),
    ("available_tools", Json.obj [
      ("programs_list", Json.obj [
        ("purpose", Json.str "Search and filter educational programs"),
        ("key_filters", Json.arr [Json.str "country_name", Json.str "institution_name",
          Json.str "program_name", Json.str "max_tuition"]),
        ("example", Json.str "Find programs in Germany under $20000")]),
      ("rank_programs", Json.obj [
        ("purpose", Json.str "Get ranked program recommendations"),
        ("ranking_methods", Json.arr [Json.str "popularity", Json.str "engagement",
          Json.str "cost_effectiveness"]),
        ("example", Json.str "Show top 5 most popular programs in Canada")])]),
    ("data_insights", Json.obj [
      ("metrics", Json.str "Programs include CTR (click-through rate), views, and impressions"),
      ("cost_info", Json.str "Tuition amounts available for budget filtering"),
      ("locations", Json.str "Programs available from institutions worldwide")])]

/-! ## pydantic argument parsing (the exceptions the dispatcher catches) -/

/-- Parse an `Optional[str]` field: absent and `None` give `none`. -/
def parseOptStr (args : Json) (k : String) : Except String (Option String) :=
  match jsonGet args k with
  | none => Except.ok none
  | some Json.null => Except.ok none
  | some (Json.str s) => Except.ok (some s)
  | some _ => Except.error (k ++ ": value is not a valid string")

/-- Parse an `Optional[float]` field. -/
def parseOptRat (args : Json) (k : String) : Except String (Option ℚ) :=
  match jsonGet args k with
  | none => Except.ok none
  | some Json.null => Except.ok none
  | some (Json.num q) => Except.ok (some q)
  | some _ => Except.error (k ++ ": value is not a valid number")

/-- Parse an `Optional[int] = d` field as a natural (see the header note). -/
def parseNatD (args : Json) (k : String) (d : ℕ) : Except String ℕ :=
  match jsonGet args k with
  | none => Except.ok d
  | some (Json.num q) =>
    if q.den = 1 ∧ 0 ≤ q.num then Except.ok q.num.toNat
    else Except.error (k ++ ": value is not a valid integer")
  | some _ => Except.error (k ++ ": value is not a valid integer")

/-- `ProgramsToolArguments(**tool_args)`: pydantic validation, raising (as
`Except.error`) on an ill-typed field. -/
def parseProgramsArgs (j : Json) : Except String ProgramsToolArguments := do
  let pn ← parseOptStr j "program_name"
  let cn ← parseOptStr j "country_name"
  let inm ← parseOptStr j "institution_name"
  let mt ← parseOptRat j "max_tuition"
  let lim ← parseNatD j "limit" 20
  let off ← parseNatD j "offset" 0
  Except.ok ⟨pn, cn, inm, mt, lim, off⟩

/-- `Optional[str] = "popularity"`: absent gives the default, `None` stays
`None`. -/
def parseRankMethod (j : Json) : Except String (Option String) :=
  match jsonGet j "ranking_method" with
  | none => Except.ok (some "popularity")
  | some Json.null => Except.ok none
  | some (Json.str s) => Except.ok (some s)
  | some _ => Except.error "ranking_method: value is not a valid string"

/-- `RankProgramsArguments(**tool_args)`. -/
def parseRankArgs (j : Json) : Except String RankProgramsArguments := do
  let cn ← parseOptStr j "country_name"
  let inm ← parseOptStr j "institution_name"
  let mt ← parseOptRat j "max_tuition"
  let rm ← parseRankMethod j
  let lim ← parseNatD j "limit" 10
  Except.ok ⟨cn, inm, mt, rm, lim⟩

/-! ## Static protocol payloads (`api_server.py`) -/

/-- The `TOOLS` constant of `api_server.py`. -/
def TOOLS : Json :=
  Json.arr [
    Json.obj [
      ("name", Json.str "programs_list"),
      ("description", Json.str "Search and filter educational programs"),
      ("inputSchema", Json.obj [
        ("type", Json.str "object"),
        ("properties", Json.obj [
          ("program_name", Json.obj [("type", Json.str "string")]),
          ("country_name", Json.obj [("type", Json.str "string")]),
          ("institution_name", Json.obj [("type", Json.str "string")]),
          ("max_tuition", Json.obj [("type", Json.str "number")]),
          ("limit", Json.obj [("type", Json.str "number"), ("default", Json.num 20)]),
          ("offset", Json.obj [("type", Json.str "number"), ("default", Json.num 0)])])])],
    Json.obj [
      ("name", Json.str "rank_programs"),
      ("description", Json.str "Get ranked program recommendations"),
      ("inputSchema", Json.obj [
        ("type", Json.str "object"),
        ("properties", Json.obj [
          ("country_name", Json.obj [("type", Json.str "string")]),
          ("institution_name", Json.obj [("type", Json.str "string")]),
          ("max_tuition", Json.obj [("type", Json.str "number")]),
          ("ranking_method", Json.obj [("type", Json.str "string"),
            ("default", Json.str "popularity")]),
          ("limit", Json.obj [("type", Json.str "number"), ("default", Json.num 10)])])])]]

/-- The `initialize` method's `result` payload. -/
def initializeResult : Json :=
  Json.obj [
    ("protocolVersion", Json.str "2024-11-05"),
    ("capabilities", Json.obj [("tools", Json.obj []), ("resources", Json.obj []),
      ("prompts", Json.obj [])]),
    ("serverInfo", Json.obj [("name", Json.str "EduMatch MCP Server"),
      ("version", Json.str "1.0.0")])]

/-- The `prompt_content` template string of `mcp_handler`. -/
def prompt_content : String :=
  "\nWhen presenting educational programs to users, structure your response as follows:\n\n## Program Recommendations\n\nFor each program, include:\n- **Program Name** at [Institution Name]\n- **Location**: Country\n- **Duration**: X months\n- **Tuition**: $X (if available)\n- **Popularity**: Describe engagement metrics in user-friendly terms\n- **Why it\x27s a good match**: Based on their search criteria\n\n## Summary\n- Total programs found: X\n- Key insights about their options\n- Suggestions for refining search if needed\n\nKeep the tone helpful and informative. Translate technical metrics (CTR, views, impressions) into user-friendly language like \"highly popular\" or \"well-regarded program.\"\n"

/-- The `prompts/list` result payload. -/
def promptsListResult : Json :=
  Json.obj [("prompts", Json.arr [
    Json.obj [
      ("name", Json.str "program_summary"),
      ("description", Json.str "Template for creating user-friendly program summaries and recommendations"),
      ("arguments", Json.arr [])]])]

/-- The `prompts/get program_summary` result payload. -/
def promptGetResult : Json :=
  Json.obj [
    ("description", Json.str "Template for creating user-friendly program summaries and recommendations"),
    ("messages", Json.arr [
      Json.obj [
        ("role", Json.str "user"),
        ("content", Json.obj [("type", Json.str "text"),
          ("text", Json.str prompt_content)])]])]

/-- The `resources/list` result payload. -/
def resourcesListResult : Json :=
  Json.obj [("resources", Json.arr [
    Json.obj [
      ("uri", Json.str "guide://usage"),
      ("name", Json.str "Usage Guide"),
      ("description", Json.str "Quick reference guide for using the EduMatch MCP server effectively"),
      ("mimeType", Json.str "application/json")]])]

/-- The `resources/read guide://usage` result payload (`str(resource_content)`). -/
def resourcesReadResult : Json :=
  Json.obj [("contents", Json.arr [
    Json.obj [
      ("uri", Json.str "guide://usage"),
      ("mimeType", Json.str "application/json"),
      ("text", Json.str (pyRepr usage_guide))]])]

/-- `{"content": [{"type": "text", "text": str(result)}]}` — the tool-result
wrapping in `tools/call`. -/
def contentWrap (result : Json) : Json :=
  Json.obj [("content", Json.arr [
    Json.obj [("type", Json.str "text"), ("text", Json.str (pyRepr result))]])]

/-- `{"code": c, "message": m}` error bodies. -/
def errorJson (code : ℤ) (message : String) : Json :=
  Json.obj [("code", Json.num (code : ℚ)), ("message", Json.str message)]

/-! ## The dispatcher (`mcp_handler`) -/

/-- The `try` block of `mcp_handler`: the method chain, with
`Except.error e` standing for an exception raised inside the block (here,
pydantic argument validation — the tool bodies catch their own exceptions
and return plain dicts).  Every branch returns an `mcp_response` envelope
carrying `request_id`. -/
def tryBody (dp : Except String (List DBRow)) (request_id method params : Json) :
    Except String Json :=
  if isStr method "initialize" then
    Except.ok (mcp_response request_id (some initializeResult) none)
  else if isStr method "tools/list" then
    Except.ok (mcp_response request_id (some (Json.obj [("tools", TOOLS)])) none)
  else if isStr method "tools/call" then
    let tool_name := (jsonGet params "name").getD Json.null
    let tool_args := (jsonGet params "arguments").getD (Json.obj [])
    if isStr tool_name "programs_list" then
      match parseProgramsArgs tool_args with
      | Except.error e => Except.error e
      | Except.ok args =>
        Except.ok (mcp_response request_id
          (some (contentWrap (programs_list dp args))) none)
    else if isStr tool_name "rank_programs" then
      match parseRankArgs tool_args with
      | Except.error e => Except.error e
      | Except.ok args =>
        Except.ok (mcp_response request_id
          (some (contentWrap (rank_programs dp args))) none)
    else
      Except.ok (mcp_response request_id none
        (some (errorJson (-32601) "Method not found")))
  else if isStr method "prompts/list" then
    Except.ok (mcp_response request_id (some promptsListResult) none)
  else if isStr method "prompts/get" then
    let prompt_name := (jsonGet params "name").getD Json.null
    if isStr prompt_name "program_summary" then
      Except.ok (mcp_response request_id (some promptGetResult) none)
    else
      Except.ok (mcp_response request_id none
        (some (errorJson (-32601) "Prompt not found")))
  else if isStr method "resources/list" then
    Except.ok (mcp_response request_id (some resourcesListResult) none)
  else if isStr method "resources/read" then
    let resource_uri := (jsonGet params "uri").getD Json.null
    if isStr resource_uri "guide://usage" then
      Except.ok (mcp_response request_id (some resourcesReadResult) none)
    else
      Except.ok (mcp_response request_id none
        (some (errorJson (-32601) "Resource not found")))
  else
    Except.ok (mcp_response request_id none
      (some (errorJson (-32601) "Method not found")))

/-- `mcp_handler` of `api_server.py`: extract `id` / `method` / `params`
(with Python `.get` defaults), run the `try` block, and convert any escaped
exception into the `-32603` error envelope. -/
def mcp_handler (dp : Except String (List DBRow)) (request_data : Json) : Json :=
  let request_id := (jsonGet request_data "id").getD Json.null
  let method := (jsonGet request_data "method").getD Json.null
  let params := (jsonGet request_data "params").getD (Json.obj [])
  match tryBody dp request_id method params with
  | Except.ok resp => resp
  | Except.error e =>
    mcp_response request_id none (some (errorJson (-32603) e))

/-! ## The stream channel (`sse_endpoint`) -/

/-- The first event yielded by `event_generator` (note the `clientInfo`
key). -/
def sseInitMsg : Json :=
  Json.obj [
    ("jsonrpc", Json.str "2.0"),
    ("method", Json.str "initialize"),
    ("params", Json.obj [
      ("protocolVersion", Json.str "2024-11-05"),
      ("capabilities", Json.obj [("tools", Json.obj []), ("resources", Json.obj []),
        ("prompts", Json.obj [])]),
      ("clientInfo", Json.obj [("name", Json.str "EduMatch MCP Server"),
        ("version", Json.str "1.0.0")])])]

/-- The second event yielded by `event_generator`. -/
def sseToolsMsg : Json :=
  Json.obj [
    ("jsonrpc", Json.str "2.0"),
    ("method", Json.str "tools/list"),
    ("result", Json.obj [("tools", TOOLS)])]

/-- The liveness event of the keep-alive loop. -/
def pingMsg : Json := Json.obj [("type", Json.str "ping")]

/-- The `n`-th event yielded by `event_generator`: handshake, catalog, then
pings forever. -/
def sseEventJson : ℕ → Json
  | 0 => sseInitMsg
  | 1 => sseToolsMsg
  | _ + 2 => pingMsg

/-- Time units elapsed since stream-open when the `n`-th event is yielded:
the handshake, catalog and FIRST ping are all yielded before the first
`asyncio.sleep(30)`; each later ping follows one 30-unit sleep. -/
def sseEmitTime : ℕ → ℕ
  | 0 => 0
  | 1 => 0
  | n + 2 => 30 * n

/-- The events actually emitted on a connection cancelled (peer disconnect)
after `d` yields: the generator is not resumed again, so the trace is the
first `d` events. -/
def sseEmitted (d : ℕ) : List Json :=
  (List.range d).map sseEventJson

/-! ## Envelope lemmas -/

/-- Every envelope echoes the submitted id under the `"id"` key. -/
theorem mcp_response_id (rid : Json) (r e : Option Json) :
    jsonGet (mcp_response rid r e) "id" = some rid := by
  unfold mcp_response
  split <;> rfl

/-- An envelope carries a `result` key exactly when it carries no `error`
key. -/
theorem mcp_response_exclusive (rid : Json) (r e : Option Json) :
    hasKey (mcp_response rid r e) "result" = !(hasKey (mcp_response rid r e) "error") := by
  unfold mcp_response
  split <;> rfl

/-- Unfolding `mcp_handler` to its `try`/`except` skeleton. -/
theorem mcp_handler_eq (dp : Except String (List DBRow)) (req : Json) :
    mcp_handler dp req =
      match tryBody dp ((jsonGet req "id").getD Json.null)
          ((jsonGet req "method").getD Json.null)
          ((jsonGet req "params").getD (Json.obj [])) with
      | Except.ok resp => resp
      | Except.error e =>
        mcp_response ((jsonGet req "id").getD Json.null) none
          (some (errorJson (-32603) e)) := rfl

/-- Every successful branch of the `try` block returns an `mcp_response`
envelope built on the submitted id. -/
theorem tryBody_ok_shape (dp : Except String (List DBRow)) (rid method params resp : Json)
    (h : tryBody dp rid method params = Except.ok resp) :
    ∃ r e, resp = mcp_response rid r e := by
  unfold tryBody at h
  repeat' first
    | split at h
    | (simp only [] at h)
  all_goals first
    | exact ⟨_, _, (Except.ok.inj h).symm⟩
    | exact Except.noConfusion h

/-- C3: for every request envelope, the response produced by the dispatcher
echoes the submitted id verbatim under `"id"` (an absent id is submitted as
Python `None`, echoed as JSON null) and carries exactly one of a `result`
key or an `error` key, never both. -/
theorem C3_envelope_invariants (dp : Except String (List DBRow)) (req : Json) :
    jsonGet (mcp_handler dp req) "id" = some ((jsonGet req "id").getD Json.null)
    ∧ hasKey (mcp_handler dp req) "result" = !(hasKey (mcp_handler dp req) "error") := by
  rw [mcp_handler_eq]
  cases htb : tryBody dp ((jsonGet req "id").getD Json.null)
      ((jsonGet req "method").getD Json.null)
      ((jsonGet req "params").getD (Json.obj [])) with
  | ok resp =>
    obtain ⟨r, e, rfl⟩ := tryBody_ok_shape _ _ _ _ _ htb
    exact ⟨mcp_response_id _ _ _, mcp_response_exclusive _ _ _⟩
  | error e =>
    exact ⟨mcp_response_id _ _ _, mcp_response_exclusive _ _ _⟩

/-- C4: every method outside the seven supported ones, every `tools/call`
with a tool name other than `programs_list` / `rank_programs`, every
`prompts/get` with an unknown prompt name, and every `resources/read` with
an unknown uri, is answered with a code `-32601` error envelope carrying the
submitted id. -/
theorem C4_not_found (dp : Except String (List DBRow)) (rid params : Json)
    (m : String) (tn pn uri : Json) :
    (m ∉ (["initialize", "tools/list", "tools/call", "prompts/list", "prompts/get",
        "resources/list", "resources/read"] : List String) →
      mcp_handler dp (Json.obj [("id", rid), ("method", Json.str m), ("params", params)]) =
        mcp_response rid none (some (errorJson (-32601) "Method not found")))
  ∧ (isStr tn "programs_list" = false → isStr tn "rank_programs" = false →
      mcp_handler dp (Json.obj [("id", rid), ("method", Json.str "tools/call"),
          ("params", Json.obj [("name", tn), ("arguments", Json.obj [])])]) =
        mcp_response rid none (some (errorJson (-32601) "Method not found")))
  ∧ (isStr pn "program_summary" = false →
      mcp_handler dp (Json.obj [("id", rid), ("method", Json.str "prompts/get"),
          ("params", Json.obj [("name", pn)])]) =
        mcp_response rid none (some (errorJson (-32601) "Prompt not found")))
  ∧ (isStr uri "guide://usage" = false →
      mcp_handler dp (Json.obj [("id", rid), ("method", Json.str "resources/read"),
          ("params", Json.obj [("uri", uri)])]) =
        mcp_response rid none (some (errorJson (-32601) "Resource not found"))) := by
  refine ⟨fun hm => ?_, fun h1 h2 => ?_, fun h1 => ?_, fun h1 => ?_⟩
  · simp only [List.mem_cons, List.not_mem_nil, or_false, not_or] at hm
    obtain ⟨h1, h2, h3, h4, h5, h6, h7⟩ := hm
    simp [mcp_handler, tryBody, jsonGet, isStr, List.find?, beq_iff_eq,
      h1, h2, h3, h4, h5, h6, h7]
  · simp [mcp_handler, tryBody, jsonGet, isStr, List.find?, beq_iff_eq] at h1 h2 ⊢
    simp [h1, h2]
  · simp [mcp_handler, tryBody, jsonGet, isStr, List.find?, beq_iff_eq] at h1 ⊢
    simp [h1]
  · simp [mcp_handler, tryBody, jsonGet, isStr, List.find?, beq_iff_eq] at h1 ⊢
    simp [h1]

/-- Closed instance discharging the hypotheses of `C4_not_found`: an unknown
method, an unknown tool, an unknown prompt and an unknown resource all
produce the `-32601` envelope with the submitted id. -/
theorem C4_not_found_witness :
    mcp_handler (Except.ok []) (Json.obj [("id", Json.num 5),
        ("method", Json.str "tools/destroy"), ("params", Json.obj [])]) =
      mcp_response (Json.num 5) none (some (errorJson (-32601) "Method not found"))
  ∧ mcp_handler (Except.ok []) (Json.obj [("id", Json.str "a"),
        ("method", Json.str "tools/call"),
        ("params", Json.obj [("name", Json.str "drop_tables"), ("arguments", Json.obj [])])]) =
      mcp_response (Json.str "a") none (some (errorJson (-32601) "Method not found"))
  ∧ mcp_handler (Except.ok []) (Json.obj [("id", Json.null),
        ("method", Json.str "prompts/get"),
        ("params", Json.obj [("name", Json.str "other_prompt")])]) =
      mcp_response Json.null none (some (errorJson (-32601) "Prompt not found"))
  ∧ mcp_handler (Except.ok []) (Json.obj [("id", Json.num 9),
        ("method", Json.str "resources/read"),
        ("params", Json.obj [("uri", Json.str "guide://other")])]) =
      mcp_response (Json.num 9) none (some (errorJson (-32601) "Resource not found")) := by
  refine ⟨?_, ?_, ?_, ?_⟩
  · exact (C4_not_found (Except.ok []) (Json.num 5) (Json.obj []) "tools/destroy"
      Json.null Json.null Json.null).1 (by decide)
  · exact (C4_not_found (Except.ok []) (Json.str "a") (Json.obj []) ""
      (Json.str "drop_tables") Json.null Json.null).2.1 (by rfl) (by rfl)
  · exact (C4_not_found (Except.ok []) Json.null (Json.obj []) ""
      Json.null (Json.str "other_prompt") Json.null).2.2.1 (by rfl)
  · exact (C4_not_found (Except.ok []) (Json.num 9) (Json.obj []) ""
      Json.null Json.null (Json.str "guide://other")).2.2.2 (by rfl)

/-- C2 fails on the code: the stream-open announcement names its identity
block `clientInfo`, while `initialize`'s result names it `serverInfo`, so
the two payloads do not have identical field names. -/
theorem C2_counterexample :
    jsonGet ((jsonGet sseInitMsg "params").getD Json.null) "serverInfo" = none
  ∧ jsonGet initializeResult "serverInfo" =
      some (Json.obj [("name", Json.str "EduMatch MCP Server"),
        ("version", Json.str "1.0.0")])
  ∧ (jsonGet sseInitMsg "params").getD Json.null ≠ initializeResult := by
  refine ⟨rfl, rfl, fun h => ?_⟩
  have h1 : jsonGet ((jsonGet sseInitMsg "params").getD Json.null) "serverInfo" = none := rfl
  rw [h] at h1
  exact Option.noConfusion h1

/-- C2 amended: the stream-open announcement's payload agrees with
`initialize`'s result on `protocolVersion` and `capabilities`, and its
identity value is the same object but carried under the key `clientInfo`
instead of `serverInfo`. -/
theorem C2_handshake_payloads :
    (∀ (dp : Except String (List DBRow)) (rid : Json),
      mcp_handler dp (Json.obj [("id", rid), ("method", Json.str "initialize")]) =
        mcp_response rid (some initializeResult) none)
  ∧ sseEventJson 0 = sseInitMsg
  ∧ jsonGet ((jsonGet sseInitMsg "params").getD Json.null) "protocolVersion" =
      jsonGet initializeResult "protocolVersion"
  ∧ jsonGet ((jsonGet sseInitMsg "params").getD Json.null) "capabilities" =
      jsonGet initializeResult "capabilities"
  ∧ jsonGet ((jsonGet sseInitMsg "params").getD Json.null) "clientInfo" =
      jsonGet initializeResult "serverInfo"
  ∧ jsonGet ((jsonGet sseInitMsg "params").getD Json.null) "serverInfo" = none
  ∧ jsonGet initializeResult "clientInfo" = none :=
  ⟨fun _ _ => rfl, rfl, rfl, rfl, rfl, rfl, rfl⟩

/-- C9 fails on the code: the first liveness ping (event index 2) is yielded
immediately after the catalog, zero time units after stream-open, not only
after the 30-unit interval has elapsed. -/
theorem C9_counterexample :
    sseEventJson 2 = pingMsg ∧ sseEmitTime 2 = 0 ∧ sseEmitTime 2 < 30 :=
  ⟨rfl, rfl, by decide⟩

/-- C9 amended: the stream yields exactly one handshake event, then exactly
one catalog event, then only ping events — the first ping immediately (at
time 0) and each subsequent ping 30 time units after the previous one —
and a connection cancelled after `d` yields emits exactly the first `d`
events, none after. -/
theorem C9_stream_order (n d : ℕ) :
    sseEventJson 0 = sseInitMsg
  ∧ sseEventJson 1 = sseToolsMsg
  ∧ (2 ≤ n → sseEventJson n = pingMsg)
  ∧ sseEmitTime 2 = 0
  ∧ (2 ≤ n → sseEmitTime (n + 1) = sseEmitTime n + 30)
  ∧ (sseEmitted d).length = d
  ∧ (∀ k, k < d → (sseEmitted d).get? k = some (sseEventJson k))
  ∧ (∀ k, d ≤ k → (sseEmitted d).get? k = none) := by
  refine ⟨rfl, rfl, fun hn => ?_, rfl, fun hn => ?_, ?_, fun k hk => ?_, fun k hk => ?_⟩
  · obtain ⟨m, rfl⟩ : ∃ m, n = m + 2 := ⟨n - 2, by omega⟩
    rfl
  · obtain ⟨m, rfl⟩ : ∃ m, n = m + 2 := ⟨n - 2, by omega⟩
    show 30 * (m + 1) = 30 * m + 30
    ring
  · simp [sseEmitted]
  · simp [sseEmitted, List.getElem?_map, List.getElem?_range hk]
  · have : (sseEmitted d).length = d := by simp [sseEmitted]
    rw [List.get?_eq_none]
    omega

/-- Closed instance discharging the hypotheses of `C9_stream_order`. -/
theorem C9_stream_order_witness :
    sseEventJson 5 = pingMsg
  ∧ sseEmitTime 6 = sseEmitTime 5 + 30
  ∧ (sseEmitted 3).get? 2 = some (sseEventJson 2)
  ∧ (sseEmitted 3).get? 3 = none := by
  obtain ⟨-, -, h3, -, -, -, -, -⟩ := C9_stream_order 5 3
  obtain ⟨-, -, -, -, h5, -, h7, h8⟩ := C9_stream_order 5 3
  exact ⟨h3 (by decide), h5 (by decide), h7 2 (by decide), h8 3 (by decide)⟩

/-- C10: in the row projection of both tools, a tuition of exactly 0 and a
ctr of exactly 0 are reported as null (Python truthiness, not an
absence test), and a null ranking score is reported as the number 0. -/
theorem C10_null_coercion (r : DBRow) (p : DBRow × Option ℚ) :
    (r.tuition = some 0 → jsonGet (shapeProgramJson r) "tuition" = some Json.null)
  ∧ (r.ctr = some 0 → jsonGet (shapeProgramJson r) "ctr" = some Json.null)
  ∧ (p.1.tuition = some 0 → jsonGet (shapeRankedJson p) "tuition" = some Json.null)
  ∧ (p.1.ctr = some 0 → jsonGet (shapeRankedJson p) "ctr" = some Json.null)
  ∧ (p.2 = none → jsonGet (shapeRankedJson p) "ranking_score" = some (Json.num 0)) := by
  refine ⟨fun h => ?_, fun h => ?_, fun h => ?_, fun h => ?_, fun h => ?_⟩ <;>
    simp [shapeProgramJson, shapeRankedJson, jsonGet, List.find?, pyFloatOrNull,
      pyFloatOrZero, h]

/-- Closed instance discharging the hypotheses of `C10_null_coercion` on a
row with zero tuition, zero ctr, and a null score. -/
theorem C10_null_coercion_witness :
    jsonGet (shapeProgramJson ⟨1, "Art", "Austria", "Uni A", "public", 12,
        some 0, some 0, 5, 10⟩) "tuition" = some Json.null
  ∧ jsonGet (shapeProgramJson ⟨1, "Art", "Austria", "Uni A", "public", 12,
        some 0, some 0, 5, 10⟩) "ctr" = some Json.null
  ∧ jsonGet (shapeRankedJson (⟨1, "Art", "Austria", "Uni A", "public", 12,
        some 0, some 0, 5, 10⟩, none)) "ranking_score" = some (Json.num 0) := by
  obtain ⟨h1, h2, -, -, h5⟩ := C10_null_coercion
    ⟨1, "Art", "Austria", "Uni A", "public", 12, some 0, some 0, 5, 10⟩
    (⟨1, "Art", "Austria", "Uni A", "public", 12, some 0, some 0, 5, 10⟩, none)
  exact ⟨h1 rfl, h2 rfl, h5 rfl⟩

/-- C6: the ranking score is `ctr × 100` for `engagement`; for
`cost_effectiveness` it is `views / tuition × 1000`, null when tuition is
zero or null; for `popularity` and every other selector it is
`views + impressions × 0.1` (unknown selectors fall back to popularity, not
an error). -/
theorem C6_score_formula (r : DBRow) (c t : ℚ) (rm : Option String) :
    (r.ctr = some c → score_formula (some "engagement") r = some (c * 100))
  ∧ (r.tuition = some t → t ≠ 0 →
      score_formula (some "cost_effectiveness") r =
        some ((r.total_views : ℚ) / t * 1000))
  ∧ (r.tuition = some 0 → score_formula (some "cost_effectiveness") r = none)
  ∧ (r.tuition = none → score_formula (some "cost_effectiveness") r = none)
  ∧ (rm ≠ some "engagement" → rm ≠ some "cost_effectiveness" →
      score_formula rm r =
        some ((r.total_views : ℚ) + (r.total_impressions : ℚ) * (1 / 10))) := by
  refine ⟨fun h => ?_, fun h ht => ?_, fun h => ?_, fun h => ?_, fun h1 h2 => ?_⟩
  · simp [score_formula, h]
  · simp [score_formula, beq_iff_eq, h, ht]
  · simp [score_formula, beq_iff_eq, h]
  · simp [score_formula, beq_iff_eq, h]
  · simp [score_formula, beq_iff_eq, h1, h2]

/-- Closed instance discharging the hypotheses of `C6_score_formula` on a
concrete record and the unknown selector `"newest"`. -/
theorem C6_score_formula_witness :
    score_formula (some "engagement")
      ⟨1, "Art", "Austria", "Uni A", "public", 12, some 50, some (1/2), 40, 60⟩ =
      some (1/2 * 100)
  ∧ score_formula (some "cost_effectiveness")
      ⟨1, "Art", "Austria", "Uni A", "public", 12, some 50, some (1/2), 40, 60⟩ =
      some ((40 : ℚ) / 50 * 1000)
  ∧ score_formula (some "cost_effectiveness")
      ⟨2, "Bio", "Belgium", "Uni B", "private", 24, some 0, some (1/2), 40, 60⟩ = none
  ∧ score_formula (some "cost_effectiveness")
      ⟨3, "Chem", "Chile", "Uni C", "public", 36, none, some (1/2), 40, 60⟩ = none
  ∧ score_formula (some "newest")
      ⟨1, "Art", "Austria", "Uni A", "public", 12, some 50, some (1/2), 40, 60⟩ =
      some ((40 : ℚ) + (60 : ℚ) * (1 / 10)) := by
  refine ⟨?_, ?_, ?_, ?_, ?_⟩
  · exact (C6_score_formula ⟨1, "Art", "Austria", "Uni A", "public", 12, some 50,
      some (1/2), 40, 60⟩ (1/2) 50 none).1 rfl
  · exact (C6_score_formula ⟨1, "Art", "Austria", "Uni A", "public", 12, some 50,
      some (1/2), 40, 60⟩ (1/2) 50 none).2.1 rfl (by norm_num)
  · exact (C6_score_formula ⟨2, "Bio", "Belgium", "Uni B", "private", 24, some 0,
      some (1/2), 40, 60⟩ (1/2) 50 none).2.2.1 rfl
  · exact (C6_score_formula ⟨3, "Chem", "Chile", "Uni C", "public", 36, none,
      some (1/2), 40, 60⟩ (1/2) 50 none).2.2.2.1 rfl
  · exact (C6_score_formula ⟨1, "Art", "Austria", "Uni A", "public", 12, some 50,
      some (1/2), 40, 60⟩ (1/2) 50 (some "newest")).2.2.2.2 (by decide) (by decide)

/-- C5: a missing `Authorization` header or a non-Bearer scheme fails with
HTTP 401; a token the external verifier rejects fails with HTTP 401; a
verified principal absent from `ALLOWED_USERS` fails with HTTP 403 with the
principal id in the message; a verified, allow-listed principal succeeds. -/
theorem C5_authgate (verifier : String → Option String) (h username : String) :
    verify_authorized_user verifier none =
      AuthResult.httpError 401 "GitHub authentication required"
  ∧ (pyStartsWith h "Bearer " = false →
      verify_authorized_user verifier (some h) =
        AuthResult.httpError 401 "GitHub authentication required")
  ∧ (pyStartsWith h "Bearer " = true → verifier (bearerToken h) = none →
      verify_authorized_user verifier (some h) =
        AuthResult.httpError 401 "Invalid GitHub token")
  ∧ (pyStartsWith h "Bearer " = true → verifier (bearerToken h) = some username →
      username ∉ ALLOWED_USERS →
      verify_authorized_user verifier (some h) =
        AuthResult.httpError 403
          ("Access denied. User \x27" ++ username ++ "\x27 not authorized"))
  ∧ (pyStartsWith h "Bearer " = true → verifier (bearerToken h) = some username →
      username ∈ ALLOWED_USERS →
      verify_authorized_user verifier (some h) = AuthResult.ok username) := by
  refine ⟨rfl, fun h1 => ?_, fun h1 h2 => ?_, fun h1 h2 h3 => ?_, fun h1 h2 h3 => ?_⟩ <;>
    simp [verify_authorized_user, h1]
  · simp [h2]
  · simp [h2, h3]
  · simp [h2, h3]

/-- Closed instance discharging the hypotheses of `C5_authgate` against a
concrete verifier that accepts two tokens. -/
theorem C5_authgate_witness :
    verify_authorized_user
        (fun t => if t = "good-token" then some "MrJohn91"
                  else if t = "eve-token" then some "eve" else none) none =
      AuthResult.httpError 401 "GitHub authentication required"
  ∧ verify_authorized_user
        (fun t => if t = "good-token" then some "MrJohn91"
                  else if t = "eve-token" then some "eve" else none) (some "Basic abc") =
      AuthResult.httpError 401 "GitHub authentication required"
  ∧ verify_authorized_user
        (fun t => if t = "good-token" then some "MrJohn91"
                  else if t = "eve-token" then some "eve" else none) (some "Bearer bad-token") =
      AuthResult.httpError 401 "Invalid GitHub token"
  ∧ verify_authorized_user
        (fun t => if t = "good-token" then some "MrJohn91"
                  else if t = "eve-token" then some "eve" else none) (some "Bearer eve-token") =
      AuthResult.httpError 403 "Access denied. User \x27eve\x27 not authorized"
  ∧ verify_authorized_user
        (fun t => if t = "good-token" then some "MrJohn91"
                  else if t = "eve-token" then some "eve" else none) (some "Bearer good-token") =
      AuthResult.ok "MrJohn91" := by
  refine ⟨?_, ?_, ?_, ?_, ?_⟩
  · exact (C5_authgate (fun t => if t = "good-token" then some "MrJohn91"
      else if t = "eve-token" then some "eve" else none) "" "").1
  · exact (C5_authgate (fun t => if t = "good-token" then some "MrJohn91"
      else if t = "eve-token" then some "eve" else none) "Basic abc" "").2.1 (by decide)
  · exact (C5_authgate (fun t => if t = "good-token" then some "MrJohn91"
      else if t = "eve-token" then some "eve" else none) "Bearer bad-token" "").2.2.1
      (by decide) (by decide)
  · exact (C5_authgate (fun t => if t = "good-token" then some "MrJohn91"
      else if t = "eve-token" then some "eve" else none) "Bearer eve-token" "eve").2.2.2.1
      (by decide) (by decide) (by decide)
  · exact (C5_authgate (fun t => if t = "good-token" then some "MrJohn91"
      else if t = "eve-token" then some "eve" else none) "Bearer good-token" "MrJohn91").2.2.2.2
      (by decide) (by decide) (by decide)

/-- C1 fails on the code: a data-provider failure raised while executing
`programs_list` via `tools/call` is caught inside the tool itself
(`server.py`), which returns the plain dict `{"error": str(e)}`, and the
dispatcher wraps that dict as a NORMAL result envelope — not as a
`{code: -32603}` error envelope. -/
theorem C1_counterexample :
    hasKey (mcp_handler (Except.error "connection to server failed")
      (Json.obj [("id", Json.num 7), ("method", Json.str "tools/call"),
        ("params", Json.obj [("name", Json.str "programs_list"),
          ("arguments", Json.obj [])])])) "result" = true
  ∧ hasKey (mcp_handler (Except.error "connection to server failed")
      (Json.obj [("id", Json.num 7), ("method", Json.str "tools/call"),
        ("params", Json.obj [("name", Json.str "programs_list"),
          ("arguments", Json.obj [])])])) "error" = false :=
  ⟨rfl, rfl⟩

/-- C1 amended: the dispatcher is total and always answers with an envelope
carrying the submitted id; a failure raised inside the dispatcher's `try`
block (argument validation) is returned as `{code: -32603, message: e}`
with the submitted id; but a data-provider failure inside `programs_list` /
`rank_programs` is caught by the tool itself, returned as the plain value
`{"error": message}`, and wrapped by `tools/call` as a normal result
envelope. -/
theorem C1_failure_wrapping (dp : Except String (List DBRow)) (req : Json)
    (e msg : String) (rid : Json) :
    (tryBody dp ((jsonGet req "id").getD Json.null) ((jsonGet req "method").getD Json.null)
        ((jsonGet req "params").getD (Json.obj [])) = Except.error e →
      mcp_handler dp req =
        mcp_response ((jsonGet req "id").getD Json.null) none
          (some (errorJson (-32603) e)))
  ∧ (∃ r er, mcp_handler dp req =
      mcp_response ((jsonGet req "id").getD Json.null) r er)
  ∧ (∀ args, programs_list (Except.error msg) args = Json.obj [("error", Json.str msg)])
  ∧ (∀ args, rank_programs (Except.error msg) args = Json.obj [("error", Json.str msg)])
  ∧ mcp_handler (Except.error msg)
      (Json.obj [("id", rid), ("method", Json.str "tools/call"),
        ("params", Json.obj [("name", Json.str "programs_list"),
          ("arguments", Json.obj [])])]) =
      mcp_response rid (some (contentWrap (Json.obj [("error", Json.str msg)]))) none := by
  refine ⟨fun htb => ?_, ?_, fun args => rfl, fun args => rfl, rfl⟩
  · rw [mcp_handler_eq, htb]
  · rw [mcp_handler_eq]
    cases htb : tryBody dp ((jsonGet req "id").getD Json.null)
        ((jsonGet req "method").getD Json.null)
        ((jsonGet req "params").getD (Json.obj [])) with
    | ok resp =>
      obtain ⟨r, er, rfl⟩ := tryBody_ok_shape _ _ _ _ _ htb
      exact ⟨r, er, rfl⟩
    | error e' => exact ⟨none, some (errorJson (-32603) e'), rfl⟩

/-- Closed instance discharging the hypothesis of `C1_failure_wrapping`: an
ill-typed `limit` argument raises inside the `try` block and is answered as
a `-32603` error envelope with the submitted id; a raised data-provider
failure is answered as a normal result envelope. -/
theorem C1_failure_wrapping_witness :
    mcp_handler (Except.ok [])
      (Json.obj [("id", Json.num 3), ("method", Json.str "tools/call"),
        ("params", Json.obj [("name", Json.str "programs_list"),
          ("arguments", Json.obj [("limit", Json.str "zzz")])])]) =
      mcp_response (Json.num 3) none
        (some (errorJson (-32603) "limit: value is not a valid integer"))
  ∧ programs_list (Except.error "db down")
      ⟨none, none, none, none, 20, 0⟩ = Json.obj [("error", Json.str "db down")]
  ∧ mcp_handler (Except.error "db down")
      (Json.obj [("id", Json.num 7), ("method", Json.str "tools/call"),
        ("params", Json.obj [("name", Json.str "programs_list"),
          ("arguments", Json.obj [])])]) =
      mcp_response (Json.num 7)
        (some (contentWrap (Json.obj [("error", Json.str "db down")]))) none := by
  obtain ⟨h1, -, h3, -, -⟩ := C1_failure_wrapping (Except.ok [])
    (Json.obj [("id", Json.num 3), ("method", Json.str "tools/call"),
      ("params", Json.obj [("name", Json.str "programs_list"),
        ("arguments", Json.obj [("limit", Json.str "zzz")])])])
    "limit: value is not a valid integer" "db down" Json.null
  obtain ⟨-, -, -, -, h5⟩ := C1_failure_wrapping (Except.error "db down")
    (Json.obj []) "" "db down" (Json.num 7)
  exact ⟨h1 rfl, h3 ⟨none, none, none, none, 20, 0⟩, h5⟩

/-- C8: `programs_list` returns records ordered by program name ascending,
matching the submitted filters, paginated to at most `limit` records after
skipping `offset`; over five alphabetically-ordered records, `limit = 2`
and `offset = 1` return the records ranked 2nd and 3rd by name. -/
theorem C8_programs_list_pagination (db : List DBRow) (args : ProgramsToolArguments) :
    (programsListRows db args).Sorted nameLE
  ∧ (programsListRows db args).length ≤ args.limit
  ∧ (∀ r ∈ programsListRows db args, matchesProgramsFilter args r = true)
  ∧ programs_list (Except.ok db) args =
      Json.obj [
        ("programs", Json.arr ((programsListRows db args).map shapeProgramJson)),
        ("count", Json.num (((programsListRows db args).map shapeProgramJson).length : ℚ)),
        ("filters_applied", filtersApplied args)]
  ∧ programsListRows
      [⟨1, "Art", "A", "U1", "t", 1, none, none, 1, 1⟩,
       ⟨2, "Bio", "B", "U2", "t", 1, none, none, 1, 1⟩,
       ⟨3, "Chem", "C", "U3", "t", 1, none, none, 1, 1⟩,
       ⟨4, "Data", "D", "U4", "t", 1, none, none, 1, 1⟩,
       ⟨5, "Econ", "E", "U5", "t", 1, none, none, 1, 1⟩]
      ⟨none, none, none, none, 2, 1⟩ =
      [⟨2, "Bio", "B", "U2", "t", 1, none, none, 1, 1⟩,
       ⟨3, "Chem", "C", "U3", "t", 1, none, none, 1, 1⟩] := by
  refine ⟨?_, ?_, fun r hr => ?_, rfl, by decide⟩
  · exact (List.sorted_insertionSort nameLE _).sublist
      ((List.take_sublist _ _).trans (List.drop_sublist _ _))
  · exact List.length_take_le _ _
  · exact List.of_mem_filter
      ((List.mem_insertionSort nameLE).1
        (List.mem_of_mem_drop (List.mem_of_mem_take hr)))

/-- Closed instance discharging the hypotheses of
`C8_programs_list_pagination`: a record of the returned page satisfies the
submitted filter. -/
theorem C8_programs_list_pagination_witness :
    matchesProgramsFilter ⟨none, none, none, some 500, 2, 1⟩
      ⟨2, "Bio", "B", "U2", "t", 1, some 100, none, 1, 1⟩ = true := by
  obtain ⟨-, -, h3, -, -⟩ := C8_programs_list_pagination
    [⟨1, "Art", "A", "U1", "t", 1, some 100, none, 1, 1⟩,
     ⟨2, "Bio", "B", "U2", "t", 1, some 100, none, 1, 1⟩]
    ⟨none, none, none, some 500, 2, 1⟩
  exact h3 ⟨2, "Bio", "B", "U2", "t", 1, some 100, none, 1, 1⟩ (by decide)

/-- C7: `rank_programs` excludes every record whose ctr or view count is
non-positive (or NULL) before scoring, orders the remaining scored records
by ranking score descending (NULL scores first, as the database does for
`DESC`), and returns at most `limit` records; in particular a record with
`total_views = 0` never appears, regardless of its other fields. -/
theorem C7_rank_filter_order_limit (db : List DBRow) (args : RankProgramsArguments) :
    (∀ p ∈ rankProgramsRows db args,
      sqlGtZero p.1.ctr = true ∧ 0 < p.1.total_views ∧
        p.2 = score_formula args.ranking_method p.1)
  ∧ (rankProgramsRows db args).Sorted rankGE
  ∧ (rankProgramsRows db args).length ≤ args.limit
  ∧ (∀ r ∈ db, r.total_views = 0 → ∀ s, (r, s) ∉ rankProgramsRows db args)
  ∧ rank_programs (Except.ok db) args =
      Json.obj [
        ("ranked_programs", Json.arr ((rankProgramsRows db args).map shapeRankedJson)),
        ("ranking_method", match args.ranking_method with
                           | some s => Json.str s
                           | none => Json.null),
        ("count", Json.num (((rankProgramsRows db args).map shapeRankedJson).length : ℚ))] := by
  have hmem : ∀ p ∈ rankProgramsRows db args,
      sqlGtZero p.1.ctr = true ∧ 0 < p.1.total_views ∧
        p.2 = score_formula args.ranking_method p.1 := by
    intro p hp
    have hp1 : p ∈ (db.filter (matchesRankFilter args)).map
        (fun r => (r, score_formula args.ranking_method r)) :=
      (List.mem_insertionSort rankGE).1 (List.mem_of_mem_take hp)
    obtain ⟨r, hr, rfl⟩ := List.mem_map.1 hp1
    have hq := List.of_mem_filter hr
    simp only [matchesRankFilter, Bool.and_eq_true, decide_eq_true_eq] at hq
    exact ⟨hq.1.1.1.1, hq.1.1.1.2, rfl⟩
  refine ⟨hmem, ?_, ?_, fun r hr hv s hmemrow => ?_, rfl⟩
  · exact (List.sorted_insertionSort rankGE _).sublist (List.take_sublist _ _)
  · exact List.length_take_le _ _
  · have h := (hmem (r, s) hmemrow).2.1
    have h' : (0 : ℤ) < r.total_views := h
    omega

/-- Closed instance discharging the hypotheses of
`C7_rank_filter_order_limit`: a record with `total_views = 0` never appears
in the ranked output, and the surviving record has positive ctr and view
count. -/
theorem C7_rank_filter_order_limit_witness :
    (∀ s, ((⟨0, "Zero", "Z", "U0", "t", 6, some 100, some 1, 0, 3⟩ : DBRow), s) ∉
      rankProgramsRows
        [⟨0, "Zero", "Z", "U0", "t", 6, some 100, some 1, 0, 3⟩,
         ⟨1, "Alpha", "A", "U1", "t", 6, some 100, some 1, 10, 0⟩]
        ⟨none, none, none, some "popularity", 10⟩)
  ∧ sqlGtZero (some 1 : Option ℚ) = true
  ∧ ((0 : ℤ) < 10) := by
  obtain ⟨h1, -, -, h4, -⟩ := C7_rank_filter_order_limit
    [⟨0, "Zero", "Z", "U0", "t", 6, some 100, some 1, 0, 3⟩,
     ⟨1, "Alpha", "A", "U1", "t", 6, some 100, some 1, 10, 0⟩]
    ⟨none, none, none, some "popularity", 10⟩
  have hm := h1 (⟨1, "Alpha", "A", "U1", "t", 6, some 100, some 1, 10, 0⟩,
      score_formula (some "popularity") ⟨1, "Alpha", "A", "U1", "t", 6, some 100, some 1, 10, 0⟩)
    (List.mem_singleton.2 rfl)
  exact ⟨h4 ⟨0, "Zero", "Z", "U0", "t", 6, some 100, some 1, 0, 3⟩ (by decide) rfl,
    hm.1, hm.2.1⟩
